import Mathlib

/-!
Verification of the image-generation module of the
`nonebot-plugin-course-schedule` repository
(`src/nonebot_plugin_course_schedule/utils/html_image_generator.py`).

The module is a formatting/templating layer: it turns course-schedule and
ranking records into template variables, hands them to an external
HTML-to-PNG renderer, writes the resulting bytes to a fresh temporary file
and returns its path.  The embedding below mirrors that structure:

* Python dict fields are modelled as `Option (Option α)`: the outer
  `Option` records whether the key is present, the inner one records a
  possibly-`None` value.  `d.get(k)` is `Option.join`, `d.get(k, default)`
  is `Option.getD · (some default)`, and `d[k]` is a lookup that throws a
  `KeyError` when the key is absent.
* `datetime` / `date` objects are external library values; we model them by
  the fields the module reads (`year`, `month`, `day`, `hour`, `minute`,
  `second`, and `weekday()`, a value in `Fin 7` with Monday = 0).
* The external renderer (`template_to_pic`) and the temp-file writer
  (`tempfile.NamedTemporaryFile` + `write`) are opaque collaborators,
  modelled as an environment of fallible functions.  Exceptions are
  modelled as `Except String`; `logger.error` output is returned alongside
  the result as a list of log lines, so each generator method becomes a
  pure function returning `Except String String × List String`.
-/

/-- Model of the `datetime`/`date` values the module reads: only the fields
actually consumed by `strftime` patterns and `weekday()`.  `weekday` follows
Python semantics (Monday = 0), guaranteed in range by `Fin 7`. -/
structure DateTime where
  year : Nat
  month : Nat
  day : Nat
  hour : Nat
  minute : Nat
  second : Nat
  weekday : Fin 7
deriving DecidableEq, Repr

/-- Zero-pad the decimal representation of `n` to width `w`, as Python
`strftime` does for `%m`, `%d`, `%H`, `%M`, `%S` (width 2) and `%Y`
(width 4). -/
def padNum (w : Nat) (n : Nat) : String :=
  let s := toString n
  String.mk (List.replicate (w - s.length) '0') ++ s

/-- `dt.strftime("%H:%M")`. -/
def strftimeHM (dt : DateTime) : String :=
  padNum 2 dt.hour ++ ":" ++ padNum 2 dt.minute

/-- `d.strftime("%m-%d ")` (note the trailing space, as in the source). -/
def strftimeMDspace (d : DateTime) : String :=
  padNum 2 d.month ++ "-" ++ padNum 2 d.day ++ " "

/-- `d.strftime("%Y/%m/%d")`. -/
def strftimeYMDslash (d : DateTime) : String :=
  padNum 4 d.year ++ "/" ++ padNum 2 d.month ++ "/" ++ padNum 2 d.day

/-- `dt.strftime("%Y-%m-%d %H:%M:%S")`, used for the generation timestamp. -/
def strftimeFull (dt : DateTime) : String :=
  padNum 4 dt.year ++ "-" ++ padNum 2 dt.month ++ "-" ++ padNum 2 dt.day
    ++ " " ++ padNum 2 dt.hour ++ ":" ++ padNum 2 dt.minute ++ ":" ++ padNum 2 dt.second

/-- A course entry as passed to the schedule generators: a Python dict whose
keys may be absent (outer `none`) or present with value `None` (inner
`none`).  Fields are exactly the keys `generate_user_schedule_image`
reads. -/
structure CourseDict where
  start_time : Option (Option DateTime)
  end_time : Option (Option DateTime)
  summary : Option (Option String)
  location : Option (Option String)
  description : Option (Option String)
deriving DecidableEq, Repr

/-- One element of `formatted_courses` built by
`generate_user_schedule_image`: the dict
`{"time_str": ..., "detail_lines": [...]}`.  Elements of `detail_lines`
are `Option String` because a key present with value `None` flows through
`dict.get(key, default)` unchanged. -/
structure FormattedCourse where
  time_str : String
  detail_lines : List (Option String)
deriving DecidableEq, Repr

/-- The per-course body of the loop in `generate_user_schedule_image`
(source lines 80–94): time-range string with placeholder, and the three
detail lines with their defaults. -/
def formatCourse (course : CourseDict) : FormattedCourse :=
  let start_time := course.start_time.join
  let end_time := course.end_time.join
  let time_str :=
    match start_time, end_time with
    | some s, some e => strftimeHM s ++ " - " ++ strftimeHM e
    | _, _ => "时间未知"
  let summary := course.summary.getD (some "无课程信息")
  let location := course.location.getD (some "未知地点")
  let teacher := course.description.getD (some "未知教师")
  { time_str := time_str, detail_lines := [summary, location, teacher] }

/-- `weeklist` from `generate_user_schedule_image` (source line 73). -/
def weeklist : List String := ["周一", "周二", "周三", "周四", "周五", "周六", "周日"]

/-- `day` (source line 71): `date.strftime("%m-%d ") if date else "今日"`. -/
def dayStr (date : Option DateTime) : String :=
  match date with
  | some d => strftimeMDspace d
  | none => "今日"

/-- `weekday` (source line 72): `date.weekday() if date else
datetime.now(timezone(timedelta(hours=8))).weekday()`; `now` stands for the
current datetime in the fixed UTC+8 offset. -/
def weekdayOf (date : Option DateTime) (now : DateTime) : Fin 7 :=
  match date with
  | some d => d.weekday
  | none => now.weekday

/-- `title_lines` (source line 76):
`[f"{nickname}的", f"{day}课程（{weeklist[weekday]}）"]`. -/
def titleLines (nickname : String) (date : Option DateTime) (now : DateTime) : List String :=
  let wd := weekdayOf date now
  [nickname ++ "的", dayStr date ++ "课程（" ++ weeklist.get ⟨wd.val, wd.isLt⟩ ++ "）"]

/-- A ranking entry as passed to `generate_ranking_image`: a Python dict;
each of the four keys the loop reads may be absent.  (The source accesses
them with `data[...]`, so an absent key raises `KeyError`.) -/
structure RankingData where
  user_id : Option Nat
  nickname : Option String
  total_duration : Option Nat
  course_count : Option Nat
deriving DecidableEq, Repr

/-- All four keys the ranking loop reads are present. -/
def RankingData.complete (d : RankingData) : Prop :=
  d.user_id.isSome ∧ d.nickname.isSome ∧ d.total_duration.isSome ∧ d.course_count.isSome

instance (d : RankingData) : Decidable d.complete := by
  unfold RankingData.complete; infer_instance

/-- One element of `formatted_ranking_data` (source lines 160–168). -/
structure FormattedRankingRow where
  row_index : Nat
  rank : String
  rank_class : String
  avatar_url : String
  nickname : String
  duration_str : String
  count_str : String
deriving DecidableEq, Repr

/-- `data[key]`: Python dict subscription, raising `KeyError` when the key
is absent. -/
def dictItem {α : Type} (field : Option α) (key : String) : Except String α :=
  match field with
  | some v => Except.ok v
  | none => Except.error ("KeyError: " ++ key)

/-- The body of the `for i, data in enumerate(ranking_data)` loop of
`generate_ranking_image` (source lines 136–168): rank and rank class from
the position, duration/count strings, avatar URL.  `total_duration` is the
duration's whole number of seconds (`timedelta.total_seconds()`); `//` and
`%` on it are `Nat` division and remainder. -/
def formatRankingRow (i : Nat) (data : RankingData) : Except String FormattedRankingRow := do
  let rank := i + 1
  let rank_class :=
    if rank = 1 then "first"
    else if rank = 2 then "second"
    else if rank = 3 then "third"
    else "other"
  let total_seconds ← dictItem data.total_duration "total_duration"
  let hours := total_seconds / 3600
  let minutes := (total_seconds % 3600) / 60
  let duration_str := toString hours ++ "h " ++ toString minutes ++ "m"
  let course_count ← dictItem data.course_count "course_count"
  let count_str := toString course_count ++ " 节"
  let user_id ← dictItem data.user_id "user_id"
  let avatar_url := "https://q1.qlogo.cn/g?b=qq&nk=" ++ toString user_id ++ "&s=100"
  let nickname ← dictItem data.nickname "nickname"
  pure { row_index := i, rank := toString rank, rank_class := rank_class,
         avatar_url := avatar_url, nickname := nickname,
         duration_str := duration_str, count_str := count_str }

/-- The `enumerate` loop of `generate_ranking_image`, building
`formatted_ranking_data` in input order; a `KeyError` in any iteration
aborts the whole method (the exception propagates out of the loop). -/
def formatRankingRowsAux (i : Nat) : List RankingData → Except String (List FormattedRankingRow)
  | [] => Except.ok []
  | d :: rest => do
    let row ← formatRankingRow i d
    let rows ← formatRankingRowsAux (i + 1) rest
    pure (row :: rows)

/-- `formatted_ranking_data` for the whole input list (enumerate starts at
index 0). -/
def formatRankingRows (l : List RankingData) : Except String (List FormattedRankingRow) :=
  formatRankingRowsAux 0 l

/-- The fields set by `HTMLImageGenerator.__init__` (source lines 28–35):
the Jinja2 environment (identified by its loader's search path), the
template path string, and the configured font path. -/
structure Generator where
  env_loader : String
  template_path : String
  font_path : String
deriving DecidableEq, Repr

/-- The `templates=` mapping each method passes to `template_to_pic`: one
variant per template, carrying exactly the variables the source puts in
`template_data`. -/
inductive TemplateData where
  | group (courses : List CourseDict)
  | user (title_lines : List String) (courses : List FormattedCourse) (generate_time : String)
  | ranking (date_range : String) (ranking_data : List FormattedRankingRow)
deriving DecidableEq, Repr

/-- One call to `template_to_pic` (keyword arguments in source order). -/
structure RenderRequest where
  template_path : String
  template_name : String
  templates : TemplateData
  max_width : Nat
  device_height : Nat
deriving DecidableEq, Repr

/-- Rendered PNG bytes, opaque to this module. -/
abbrev Img := List Nat

/-- The external collaborators: the HTML renderer (`template_to_pic`) and
the temp-file writer (`tempfile.NamedTemporaryFile` + `write` + `close`,
returning the file's path).  Either may raise; exceptions are strings. -/
structure RenderEnv where
  render : RenderRequest → Except String Img
  tempWrite : Img → Except String String

/-- `generate_schedule_image` (source lines 37–63): build `template_data`,
render `group_schedule.html` at 1200×800, write the bytes to a temp file
and return its path; on any exception, log
`生成群课程表图片失败: {e}` and re-raise.  The second component is the list
of log lines produced by the call. -/
def generate_schedule_image (env : RenderEnv) (g : Generator)
    (courses : List CourseDict) : Except String String × List String :=
  let body : Except String String := do
    let template_data := TemplateData.group courses
    let img_data ← env.render
      { template_path := g.template_path, template_name := "group_schedule.html",
        templates := template_data, max_width := 1200, device_height := 800 }
    let temp_path ← env.tempWrite img_data
    pure temp_path
  match body with
  | Except.ok p => (Except.ok p, [])
  | Except.error e => (Except.error e, ["生成群课程表图片失败: " ++ e])

/-- `generate_user_schedule_image` (source lines 65–124): derive the
two-line title, format each course, stamp the generation time (`now` is the
current datetime in the fixed UTC+8 offset), render `user_schedule.html` at
1000×600, write the temp file; on any exception, log
`生成用户课程表图片失败: {e}` and re-raise. -/
def generate_user_schedule_image (env : RenderEnv) (g : Generator)
    (courses : List CourseDict) (nickname : String) (date : Option DateTime)
    (now : DateTime) : Except String String × List String :=
  let body : Except String String := do
    let title_lines := titleLines nickname date now
    let formatted_courses := courses.map formatCourse
    let generate_time := strftimeFull now
    let template_data := TemplateData.user title_lines formatted_courses generate_time
    let img_data ← env.render
      { template_path := g.template_path, template_name := "user_schedule.html",
        templates := template_data, max_width := 1000, device_height := 600 }
    let temp_path ← env.tempWrite img_data
    pure temp_path
  match body with
  | Except.ok p => (Except.ok p, [])
  | Except.error e => (Except.error e, ["生成用户课程表图片失败: " ++ e])

/-- `generate_ranking_image` (source lines 126–194): derive the date-range
label, format the ranking rows (a `KeyError` there is caught by the same
`except` block), render `ranking.html` at 1200×800, write the temp file; on
any exception, log `生成排行榜图片失败: {e}` and re-raise. -/
def generate_ranking_image (env : RenderEnv) (g : Generator)
    (ranking_data : List RankingData) (start_date end_date : DateTime) :
    Except String String × List String :=
  let body : Except String String := do
    let date_range := strftimeYMDslash start_date ++ " - " ++ strftimeYMDslash end_date
    let formatted_ranking_data ← formatRankingRows ranking_data
    let template_data := TemplateData.ranking date_range formatted_ranking_data
    let img_data ← env.render
      { template_path := g.template_path, template_name := "ranking.html",
        templates := template_data, max_width := 1200, device_height := 800 }
    let temp_path ← env.tempWrite img_data
    pure temp_path
  match body with
  | Except.ok p => (Except.ok p, [])
  | Except.error e => (Except.error e, ["生成排行榜图片失败: " ++ e])

/-- `generate_schedule_image` viewed as a method on the generator state:
the body contains no assignment to any `self` field, so the post-state of
`self` is the pre-state. -/
def generate_schedule_image_method (env : RenderEnv) (courses : List CourseDict)
    (g : Generator) : (Except String String × List String) × Generator :=
  (generate_schedule_image env g courses, g)

/-- `generate_user_schedule_image` viewed as a method on the generator
state (no `self` field is assigned in the body). -/
def generate_user_schedule_image_method (env : RenderEnv) (courses : List CourseDict)
    (nickname : String) (date : Option DateTime) (now : DateTime)
    (g : Generator) : (Except String String × List String) × Generator :=
  (generate_user_schedule_image env g courses nickname date now, g)

/-- `generate_ranking_image` viewed as a method on the generator state (no
`self` field is assigned in the body). -/
def generate_ranking_image_method (env : RenderEnv) (ranking_data : List RankingData)
    (start_date end_date : DateTime)
    (g : Generator) : (Except String String × List String) × Generator :=
  (generate_ranking_image env g ranking_data start_date end_date, g)

/-! ### Concrete fixtures used by witness statements -/

/-- A concrete generator state. -/
def g0 : Generator :=
  { env_loader := "/plugin/templates", template_path := "/plugin/templates",
    font_path := "/plugin/resources/MapleMono-NF-CN-Medium.ttf" }

/-- A concrete current datetime (UTC+8), a Monday. -/
def now0 : DateTime :=
  { year := 2026, month := 10, day := 12, hour := 9, minute := 30, second := 0, weekday := 0 }

/-- A concrete course start time, 08:30. -/
def dt1 : DateTime :=
  { year := 2026, month := 10, day := 12, hour := 8, minute := 30, second := 0, weekday := 0 }

/-- A concrete course end time, 10:05. -/
def dt2 : DateTime :=
  { year := 2026, month := 10, day := 12, hour := 10, minute := 5, second := 0, weekday := 0 }

/-- A course dict with both time keys absent. -/
def courseNoTimes : CourseDict :=
  { start_time := none, end_time := none, summary := none, location := none, description := none }

/-- A course dict with both time keys present and non-`None`. -/
def courseBothTimes : CourseDict :=
  { start_time := some (some dt1), end_time := some (some dt2),
    summary := some (some "数学"), location := some (some "A101"),
    description := some (some "张老师") }

/-- A course dict with `summary` present but `None`, `start_time` present
but `None`, and the other keys absent. -/
def courseNoneValues : CourseDict :=
  { start_time := some none, end_time := some (some dt2),
    summary := some none, location := none, description := none }

/-- A complete ranking entry. -/
def rk1 : RankingData :=
  { user_id := some 123456, nickname := some "甲", total_duration := some 3661,
    course_count := some 2 }

/-- Another complete ranking entry. -/
def rk2 : RankingData :=
  { user_id := some 42, nickname := some "乙", total_duration := some 7322,
    course_count := some 3 }

/-- A concrete list of five complete ranking entries. -/
def rkList : List RankingData := [rk1, rk2, rk1, rk2, rk1]

/-- A ranking entry missing the `total_duration` key. -/
def rkBad : RankingData :=
  { user_id := some 7, nickname := some "丙", total_duration := none, course_count := some 1 }

/-- An environment whose renderer always fails with the cause `boom`. -/
def envRenderFail : RenderEnv :=
  { render := fun _ => Except.error "boom", tempWrite := fun _ => Except.ok "/tmp/tmp1.png" }

/-- An environment whose renderer succeeds but whose temp-file write always
fails with the cause `disk full`. -/
def envWriteFail : RenderEnv :=
  { render := fun _ => Except.ok [1], tempWrite := fun _ => Except.error "disk full" }

/-- An environment where both collaborators succeed. -/
def envOk : RenderEnv :=
  { render := fun _ => Except.ok [9], tempWrite := fun _ => Except.ok "/tmp/tmp2.png" }

/-- Observation helper: serialize the title lines of a user-schedule
template payload, to observe what a generator method hands the renderer. -/
def titleProbe (td : TemplateData) : String :=
  match td with
  | TemplateData.user title_lines _ _ => String.intercalate "|" title_lines
  | _ => ""

/-- An environment whose renderer reports back the title lines of the
payload it received as the failure cause. -/
def envProbe : RenderEnv :=
  { render := fun r => Except.error (titleProbe r.templates),
    tempWrite := fun _ => Except.ok "/tmp/tmp3.png" }

/-! ### Helper lemmas about the ranking loop -/

/-- Evaluating the loop body on an entry that has all four keys. -/
theorem formatRankingRow_ok (i u : Nat) (n : String) (t c : Nat) :
    formatRankingRow i
      { user_id := some u, nickname := some n, total_duration := some t,
        course_count := some c } =
    Except.ok
      { row_index := i, rank := toString (i + 1),
        rank_class :=
          if i + 1 = 1 then "first" else if i + 1 = 2 then "second"
          else if i + 1 = 3 then "third" else "other",
        avatar_url := "https://q1.qlogo.cn/g?b=qq&nk=" ++ toString u ++ "&s=100",
        nickname := n,
        duration_str := toString (t / 3600) ++ "h " ++ toString (t % 3600 / 60) ++ "m",
        count_str := toString c ++ " 节" } := rfl

/-- On a list of complete entries the loop succeeds and, starting from
index `i`, row `j` carries rank `i + j + 1` and the matching rank class. -/
theorem formatRankingRowsAux_ok (l : List RankingData) :
    ∀ i, (∀ e ∈ l, e.complete) →
      ∃ rows, formatRankingRowsAux i l = Except.ok rows ∧ rows.length = l.length ∧
        ∀ j (hj : j < rows.length),
          (rows.get ⟨j, hj⟩).rank = toString (i + j + 1) ∧
          (rows.get ⟨j, hj⟩).rank_class =
            (if i + j + 1 = 1 then "first" else if i + j + 1 = 2 then "second"
             else if i + j + 1 = 3 then "third" else "other") := by
  induction l with
  | nil =>
    intro i _
    exact ⟨[], rfl, rfl, fun j hj => absurd hj (by simp)⟩
  | cons d rest ih =>
    intro i h
    obtain ⟨du, dn, dt, dc⟩ := d
    obtain ⟨hu, hn, ht, hc⟩ := h _ (List.mem_cons_self _ _)
    obtain ⟨u, hu2⟩ := Option.isSome_iff_exists.mp hu
    obtain ⟨n, hn2⟩ := Option.isSome_iff_exists.mp hn
    obtain ⟨t, ht2⟩ := Option.isSome_iff_exists.mp ht
    obtain ⟨c, hc2⟩ := Option.isSome_iff_exists.mp hc
    dsimp only at hu2 hn2 ht2 hc2
    subst hu2 hn2 ht2 hc2
    obtain ⟨rows, hrows, hlen, hget⟩ := ih (i + 1) (fun e he => h e (List.mem_cons_of_mem _ he))
    refine ⟨{ row_index := i, rank := toString (i + 1),
              rank_class :=
                if i + 1 = 1 then "first" else if i + 1 = 2 then "second"
                else if i + 1 = 3 then "third" else "other",
              avatar_url := "https://q1.qlogo.cn/g?b=qq&nk=" ++ toString u ++ "&s=100",
              nickname := n,
              duration_str := toString (t / 3600) ++ "h " ++ toString (t % 3600 / 60) ++ "m",
              count_str := toString c ++ " 节" } :: rows, ?_, ?_, ?_⟩
    · simp only [formatRankingRowsAux, formatRankingRow_ok, hrows]
      rfl
    · simpa using hlen
    · intro j hj
      match j with
      | 0 =>
        constructor
        · show toString (i + 1) = toString (i + 0 + 1)
          simp
        · show (if i + 1 = 1 then "first" else if i + 1 = 2 then "second"
                else if i + 1 = 3 then "third" else "other") = _
          simp
      | Nat.succ j' =>
        have hj' : j' < rows.length := by
          have := hj
          simp at this
          omega
        obtain ⟨h1, h2⟩ := hget j' hj'
        constructor
        · show (rows.get ⟨j', hj'⟩).rank = toString (i + (j' + 1) + 1)
          rw [h1, show i + 1 + j' + 1 = i + (j' + 1) + 1 from by omega]
        · show (rows.get ⟨j', hj'⟩).rank_class = _
          rw [h2, show i + 1 + j' + 1 = i + (j' + 1) + 1 from by omega]

/-- The loop body on an entry missing at least one of its four keys raises
a `KeyError`. -/
theorem formatRankingRow_incomplete (i : Nat) (d : RankingData) (h : ¬ d.complete) :
    ∃ msg, formatRankingRow i d = Except.error msg := by
  obtain ⟨du, dn, dt, dc⟩ := d
  cases dt with
  | none => exact ⟨_, rfl⟩
  | some t =>
    cases dc with
    | none => exact ⟨_, rfl⟩
    | some c =>
      cases du with
      | none => exact ⟨_, rfl⟩
      | some u =>
        cases dn with
        | none => exact ⟨_, rfl⟩
        | some n => exact absurd ⟨rfl, rfl, rfl, rfl⟩ h

/-- If some entry of the list is missing a key, the whole loop raises. -/
theorem formatRankingRowsAux_error (l : List RankingData) :
    ∀ i, (∃ e ∈ l, ¬ e.complete) →
      ∃ msg, formatRankingRowsAux i l = Except.error msg := by
  induction l with
  | nil => intro i h; simp at h
  | cons d rest ih =>
    intro i h
    by_cases hd : d.complete
    · have hrest : ∃ e ∈ rest, ¬ e.complete := by
        obtain ⟨e, he, hne⟩ := h
        rcases List.mem_cons.mp he with rfl | hmem
        · exact absurd hd hne
        · exact ⟨e, hmem, hne⟩
      obtain ⟨du, dn, dt, dc⟩ := d
      obtain ⟨hu, hn, ht, hc⟩ := hd
      obtain ⟨u, hu2⟩ := Option.isSome_iff_exists.mp hu
      obtain ⟨n, hn2⟩ := Option.isSome_iff_exists.mp hn
      obtain ⟨t, ht2⟩ := Option.isSome_iff_exists.mp ht
      obtain ⟨c, hc2⟩ := Option.isSome_iff_exists.mp hc
      dsimp only at hu2 hn2 ht2 hc2
      subst hu2 hn2 ht2 hc2
      obtain ⟨msg, hmsg⟩ := ih (i + 1) hrest
      refine ⟨msg, ?_⟩
      simp only [formatRankingRowsAux, formatRankingRow_ok, hmsg]
      rfl
    · obtain ⟨msg, hmsg⟩ := formatRankingRow_incomplete i d hd
      refine ⟨msg, ?_⟩
      simp only [formatRankingRowsAux, hmsg]
      rfl

/-! ### Claim theorems -/

/-- Claim C1: for every input sequence of N ranking entries (N ≥ 0, all
four required keys present), the formatting loop of
`generate_ranking_image` assigns ranks exactly `1..N` in the order the
entries were received, without sorting, and assigns rank class `first` to
rank 1, `second` to rank 2, `third` to rank 3, and `other` to every rank
≥ 4. -/
theorem ranking_ranks_one_to_n (l : List RankingData) (h : ∀ e ∈ l, e.complete) :
    ∃ rows, formatRankingRows l = Except.ok rows ∧ rows.length = l.length ∧
      ∀ j (hj : j < rows.length),
        (rows.get ⟨j, hj⟩).rank = toString (j + 1) ∧
        (j + 1 = 1 → (rows.get ⟨j, hj⟩).rank_class = "first") ∧
        (j + 1 = 2 → (rows.get ⟨j, hj⟩).rank_class = "second") ∧
        (j + 1 = 3 → (rows.get ⟨j, hj⟩).rank_class = "third") ∧
        (4 ≤ j + 1 → (rows.get ⟨j, hj⟩).rank_class = "other") := by
  obtain ⟨rows, hrows, hlen, hget⟩ := formatRankingRowsAux_ok l 0 h
  refine ⟨rows, hrows, hlen, fun j hj => ?_⟩
  obtain ⟨h1, h2⟩ := hget j hj
  rw [Nat.zero_add] at h1 h2
  refine ⟨h1, fun he => ?_, fun he => ?_, fun he => ?_, fun he => ?_⟩
  · rw [h2]; simp [he]
  · rw [h2]; simp [he]
  · rw [h2]; simp [he]
  · rw [h2, if_neg (by omega), if_neg (by omega), if_neg (by omega)]

/-- Witness for C1 at a concrete five-entry list of complete entries. -/
theorem ranking_ranks_one_to_n_witness :
    ∃ rows, formatRankingRows rkList = Except.ok rows ∧ rows.length = rkList.length ∧
      ∀ j (hj : j < rows.length),
        (rows.get ⟨j, hj⟩).rank = toString (j + 1) ∧
        (j + 1 = 1 → (rows.get ⟨j, hj⟩).rank_class = "first") ∧
        (j + 1 = 2 → (rows.get ⟨j, hj⟩).rank_class = "second") ∧
        (j + 1 = 3 → (rows.get ⟨j, hj⟩).rank_class = "third") ∧
        (4 ≤ j + 1 → (rows.get ⟨j, hj⟩).rank_class = "other") :=
  ranking_ranks_one_to_n rkList (by decide)

/-- Claim C4: for every ranking entry with a `total_duration` of `S`
seconds, the loop formats the duration string as `{H}h {M}m` with
`H = S / 3600` and `M = (S % 3600) / 60` (truncating division, leftover
seconds discarded); in particular `S = 3661` yields exactly `1h 1m`. -/
theorem ranking_duration_truncation :
    (∀ (i u : Nat) (n : String) (t c : Nat),
      ∃ row, formatRankingRow i
          { user_id := some u, nickname := some n, total_duration := some t,
            course_count := some c } = Except.ok row ∧
        row.duration_str = toString (t / 3600) ++ "h " ++ toString (t % 3600 / 60) ++ "m") ∧
    (∃ row, formatRankingRow 0
        { user_id := some 1, nickname := some "甲", total_duration := some 3661,
          course_count := some 1 } = Except.ok row ∧
      row.duration_str = "1h 1m") := by
  constructor
  · intro i u n t c
    exact ⟨_, formatRankingRow_ok i u n t c, rfl⟩
  · exact ⟨_, formatRankingRow_ok 0 1 "甲" 3661 1, by decide⟩

/-- Claim C6: for every ranking entry with user id `u`, the loop builds
the avatar URL by pure string construction as
`https://q1.qlogo.cn/g?b=qq&nk={u}&s=100`; in particular user id `123456`
yields exactly `https://q1.qlogo.cn/g?b=qq&nk=123456&s=100`. -/
theorem ranking_avatar_url :
    (∀ (i u : Nat) (n : String) (t c : Nat),
      ∃ row, formatRankingRow i
          { user_id := some u, nickname := some n, total_duration := some t,
            course_count := some c } = Except.ok row ∧
        row.avatar_url = "https://q1.qlogo.cn/g?b=qq&nk=" ++ toString u ++ "&s=100") ∧
    (∃ row, formatRankingRow 0
        { user_id := some 123456, nickname := some "甲", total_duration := some 3600,
          course_count := some 1 } = Except.ok row ∧
      row.avatar_url = "https://q1.qlogo.cn/g?b=qq&nk=123456&s=100") := by
  constructor
  · intro i u n t c
    exact ⟨_, formatRankingRow_ok i u n t c, rfl⟩
  · exact ⟨_, formatRankingRow_ok 0 123456 "甲" 3600 1, by decide⟩

/-- Claim C10: `generate_ranking_image` treats `total_duration`,
`course_count`, `user_id` and `nickname` as required: if any entry is
missing one of these keys, the call raises a `KeyError` (logged with the
operation context, then propagated) and returns no image handle. -/
theorem ranking_missing_key_raises (env : RenderEnv) (g : Generator)
    (ranking_data : List RankingData) (start_date end_date : DateTime)
    (h : ∃ e ∈ ranking_data, ¬ e.complete) :
    ∃ msg, generate_ranking_image env g ranking_data start_date end_date =
      (Except.error msg, ["生成排行榜图片失败: " ++ msg]) := by
  obtain ⟨msg, hmsg⟩ := formatRankingRowsAux_error ranking_data 0 h
  refine ⟨msg, ?_⟩
  simp only [generate_ranking_image, formatRankingRows, hmsg]
  rfl

/-- Witness for C10: a list whose second entry is missing
`total_duration`. -/
theorem ranking_missing_key_raises_witness :
    ∃ msg, generate_ranking_image envOk g0 [rk1, rkBad] now0 now0 =
      (Except.error msg, ["生成排行榜图片失败: " ++ msg]) :=
  ranking_missing_key_raises envOk g0 [rk1, rkBad] now0 now0
    ⟨rkBad, by decide, by decide⟩

/-- Claim C2: for every course entry passed to
`generate_user_schedule_image`, if either `start_time` or `end_time` is
missing (the key absent or its value `None`), the entry's time string is
exactly the placeholder `时间未知` — formatting is total, so it cannot
crash; if both are present, the time string is `HH:MM - HH:MM` built from
the two timestamps. -/
theorem user_course_time_string (c : CourseDict) :
    ((c.start_time.join = none ∨ c.end_time.join = none) →
      (formatCourse c).time_str = "时间未知") ∧
    (∀ s e, c.start_time.join = some s → c.end_time.join = some e →
      (formatCourse c).time_str = strftimeHM s ++ " - " ++ strftimeHM e) := by
  obtain ⟨st, et, sm, lo, de⟩ := c
  constructor
  · intro h
    rcases st with _ | (_ | st)
    · rfl
    · rfl
    · rcases et with _ | (_ | et)
      · rfl
      · rfl
      · rcases h with h | h <;> simp at h
  · intro s e hs he
    rcases st with _ | (_ | st)
    · simp at hs
    · simp at hs
    · rcases et with _ | (_ | et)
      · simp at he
      · simp at he
      · simp at hs he
        subst hs he
        rfl

/-- Witness for C2: a course with both time keys absent, and one with
both times present (08:30–10:05). -/
theorem user_course_time_string_witness :
    (formatCourse courseNoTimes).time_str = "时间未知" ∧
    (formatCourse courseBothTimes).time_str = strftimeHM dt1 ++ " - " ++ strftimeHM dt2 :=
  ⟨(user_course_time_string courseNoTimes).1 (Or.inl rfl),
   (user_course_time_string courseBothTimes).2 dt1 dt2 rfl rfl⟩

/-- Claim C5: `generate_user_schedule_image` derives a two-line title
whose first line is `{nickname}的`; the second line uses the literal
`今日` when no reference date is given (weekday taken from the current
UTC+8 datetime `now`), or the date formatted `MM-DD ` when one is given,
combined with the weekday name from the fixed 7-entry Chinese weekday
table indexed by `weekday()` (Monday = 0); and the method hands the
renderer exactly these title lines. -/
theorem user_schedule_title_lines (nickname : String) (now : DateTime) :
    (titleLines nickname none now =
      [nickname ++ "的",
       "今日课程（" ++ weeklist.get ⟨now.weekday.val, now.weekday.isLt⟩ ++ "）"]) ∧
    (∀ d : DateTime, titleLines nickname (some d) now =
      [nickname ++ "的",
       strftimeMDspace d ++ "课程（" ++ weeklist.get ⟨d.weekday.val, d.weekday.isLt⟩ ++ "）"]) ∧
    (∀ (f : TemplateData → String) (env : RenderEnv) (g : Generator)
        (courses : List CourseDict) (date : Option DateTime),
      (∀ r, env.render r = Except.error (f r.templates)) →
      (generate_user_schedule_image env g courses nickname date now).1 =
        Except.error (f (TemplateData.user (titleLines nickname date now)
          (courses.map formatCourse) (strftimeFull now)))) := by
  refine ⟨rfl, fun d => rfl, fun f env g courses date hrender => ?_⟩
  simp only [generate_user_schedule_image, hrender]
  rfl

/-- Witness for C5: probing the renderer input shows the exact title
lines for nickname `甲` on a Monday with no reference date. -/
theorem user_schedule_title_lines_witness :
    (generate_user_schedule_image envProbe g0 [] "甲" none now0).1 =
      Except.error "甲的|今日课程（周一）" := by
  have h := (user_schedule_title_lines "甲" now0).2.2 titleProbe envProbe g0 [] none
    (fun r => rfl)
  exact h.trans (congrArg Except.error (by decide))

/-- Claim C9: in `generate_user_schedule_image`, the detail-line defaults
(`summary` → `无课程信息`, `location` → `未知地点`, `description` →
`未知教师`) are applied exactly when the corresponding key is absent; a
key present with value `None` is passed through as `None` rather than
replaced; the time placeholder `时间未知` additionally applies when
`start_time` or `end_time` is present but `None`. -/
theorem course_detail_placeholder_semantics (c : CourseDict) :
    (c.summary = none → (formatCourse c).detail_lines.get? 0 = some (some "无课程信息")) ∧
    (∀ v, c.summary = some v → (formatCourse c).detail_lines.get? 0 = some v) ∧
    (c.location = none → (formatCourse c).detail_lines.get? 1 = some (some "未知地点")) ∧
    (∀ v, c.location = some v → (formatCourse c).detail_lines.get? 1 = some v) ∧
    (c.description = none → (formatCourse c).detail_lines.get? 2 = some (some "未知教师")) ∧
    (∀ v, c.description = some v → (formatCourse c).detail_lines.get? 2 = some v) ∧
    (c.start_time = some none → (formatCourse c).time_str = "时间未知") ∧
    (c.end_time = some none → (formatCourse c).time_str = "时间未知") := by
  refine ⟨fun h => ?_, fun v h => ?_, fun h => ?_, fun v h => ?_, fun h => ?_,
          fun v h => ?_, fun h => ?_, fun h => ?_⟩
  · simp [formatCourse, h]
  · simp [formatCourse, h]
  · simp [formatCourse, h]
  · simp [formatCourse, h]
  · simp [formatCourse, h]
  · simp [formatCourse, h]
  · simp [formatCourse, h]
  · rcases hs : c.start_time.join with _ | s <;> simp [formatCourse, h, hs]

/-- Witness for C9: absent keys get their placeholders; keys present with
value `None` pass through as `None`; a `None` start time yields the time
placeholder. -/
theorem course_detail_placeholder_semantics_witness :
    (formatCourse courseNoTimes).detail_lines.get? 0 = some (some "无课程信息") ∧
    (formatCourse courseNoneValues).detail_lines.get? 0 = some none ∧
    (formatCourse courseNoneValues).detail_lines.get? 1 = some (some "未知地点") ∧
    (formatCourse courseNoneValues).time_str = "时间未知" :=
  ⟨(course_detail_placeholder_semantics courseNoTimes).1 rfl,
   (course_detail_placeholder_semantics courseNoneValues).2.1 none rfl,
   (course_detail_placeholder_semantics courseNoneValues).2.2.1 rfl,
   (course_detail_placeholder_semantics courseNoneValues).2.2.2.2.2.2.1 rfl⟩

/-- Computation rule for `Except` bind on a success value. -/
theorem except_bind_ok {ε α β : Type} (a : α) (f : α → Except ε β) :
    (Except.ok a : Except ε α) >>= f = f a := rfl

/-- Computation rule for `Except` bind on an error value. -/
theorem except_bind_error {ε α β : Type} (e : ε) (f : α → Except ε β) :
    (Except.error e : Except ε α) >>= f = Except.error e := rfl

/-- Claim C3: whenever the external renderer — or the temp-file write —
fails in any of the three render operations, the operation fails by
propagating the underlying cause after logging it with the operation
context, and no image handle (no `ok` result) is returned to the caller. -/
theorem render_failure_logs_and_raises (g : Generator) (courses : List CourseDict)
    (nickname : String) (date : Option DateTime) (now : DateTime)
    (rdata : List RankingData) (sd ed : DateTime) (c : String)
    (hc : ∀ e ∈ rdata, e.complete) :
    (∀ env : RenderEnv, (∀ r, env.render r = Except.error c) →
      generate_schedule_image env g courses =
        (Except.error c, ["生成群课程表图片失败: " ++ c]) ∧
      generate_user_schedule_image env g courses nickname date now =
        (Except.error c, ["生成用户课程表图片失败: " ++ c]) ∧
      generate_ranking_image env g rdata sd ed =
        (Except.error c, ["生成排行榜图片失败: " ++ c])) ∧
    (∀ (env : RenderEnv) (imgF : RenderRequest → Img),
      (∀ r, env.render r = Except.ok (imgF r)) →
      (∀ img, env.tempWrite img = Except.error c) →
      generate_schedule_image env g courses =
        (Except.error c, ["生成群课程表图片失败: " ++ c]) ∧
      generate_user_schedule_image env g courses nickname date now =
        (Except.error c, ["生成用户课程表图片失败: " ++ c]) ∧
      generate_ranking_image env g rdata sd ed =
        (Except.error c, ["生成排行榜图片失败: " ++ c])) := by
  obtain ⟨rows, hrows, -, -⟩ := formatRankingRowsAux_ok rdata 0 hc
  constructor
  · intro env hrender
    refine ⟨?_, ?_, ?_⟩
    · simp only [generate_schedule_image, hrender, except_bind_error]
    · simp only [generate_user_schedule_image, hrender, except_bind_error]
    · simp only [generate_ranking_image, formatRankingRows, hrows, hrender,
        except_bind_ok, except_bind_error]
  · intro env imgF hrender hw
    refine ⟨?_, ?_, ?_⟩
    · simp only [generate_schedule_image, hrender, hw, except_bind_ok, except_bind_error]
    · simp only [generate_user_schedule_image, hrender, hw, except_bind_ok,
        except_bind_error]
    · simp only [generate_ranking_image, formatRankingRows, hrows, hrender, hw,
        except_bind_ok, except_bind_error]

/-- Witness for C3: a renderer that fails with `boom`, and a temp-file
writer that fails with `disk full`, each exercised on all three
operations. -/
theorem render_failure_logs_and_raises_witness :
    (generate_schedule_image envRenderFail g0 [] =
       (Except.error "boom", ["生成群课程表图片失败: boom"]) ∧
     generate_user_schedule_image envRenderFail g0 [] "甲" none now0 =
       (Except.error "boom", ["生成用户课程表图片失败: boom"]) ∧
     generate_ranking_image envRenderFail g0 rkList now0 now0 =
       (Except.error "boom", ["生成排行榜图片失败: boom"])) ∧
    (generate_schedule_image envWriteFail g0 [] =
       (Except.error "disk full", ["生成群课程表图片失败: disk full"]) ∧
     generate_user_schedule_image envWriteFail g0 [] "甲" none now0 =
       (Except.error "disk full", ["生成用户课程表图片失败: disk full"]) ∧
     generate_ranking_image envWriteFail g0 rkList now0 now0 =
       (Except.error "disk full", ["生成排行榜图片失败: disk full"])) :=
  ⟨(render_failure_logs_and_raises g0 [] "甲" none now0 rkList now0 now0 "boom"
      (by decide)).1 envRenderFail (fun _ => rfl),
   (render_failure_logs_and_raises g0 [] "甲" none now0 rkList now0 now0 "disk full"
      (by decide)).2 envWriteFail (fun _ => [1]) (fun _ => rfl) (fun _ => rfl)⟩

/-- Claim C7: with empty input lists (`courses = []`,
`ranking_data = []`), each render operation completes successfully when
the external collaborators succeed, handing the renderer an empty content
list and returning the temp-file path with nothing logged — no division
or index errors can occur. -/
theorem empty_inputs_render_ok (env : RenderEnv) (g : Generator) (nickname : String)
    (date : Option DateTime) (now : DateTime) (sd ed : DateTime)
    (img1 img2 img3 : Img) (p1 p2 p3 : String) :
    (env.render
        { template_path := g.template_path, template_name := "group_schedule.html",
          templates := TemplateData.group [], max_width := 1200, device_height := 800 } =
          Except.ok img1 →
      env.tempWrite img1 = Except.ok p1 →
      generate_schedule_image env g [] = (Except.ok p1, [])) ∧
    (env.render
        { template_path := g.template_path, template_name := "user_schedule.html",
          templates := TemplateData.user (titleLines nickname date now) [] (strftimeFull now),
          max_width := 1000, device_height := 600 } = Except.ok img2 →
      env.tempWrite img2 = Except.ok p2 →
      generate_user_schedule_image env g [] nickname date now = (Except.ok p2, [])) ∧
    (env.render
        { template_path := g.template_path, template_name := "ranking.html",
          templates := TemplateData.ranking
            (strftimeYMDslash sd ++ " - " ++ strftimeYMDslash ed) [],
          max_width := 1200, device_height := 800 } = Except.ok img3 →
      env.tempWrite img3 = Except.ok p3 →
      generate_ranking_image env g [] sd ed = (Except.ok p3, [])) := by
  refine ⟨fun h1 h2 => ?_, fun h1 h2 => ?_, fun h1 h2 => ?_⟩
  · simp only [generate_schedule_image, h1, h2, except_bind_ok]
    rfl
  · simp only [generate_user_schedule_image, List.map_nil, h1, h2, except_bind_ok]
    rfl
  · simp only [generate_ranking_image, formatRankingRows, formatRankingRowsAux,
      h1, h2, except_bind_ok]
    rfl

/-- Witness for C7: a succeeding environment renders all three empty
inputs to the temp path with an empty log. -/
theorem empty_inputs_render_ok_witness :
    generate_schedule_image envOk g0 [] = (Except.ok "/tmp/tmp2.png", []) ∧
    generate_user_schedule_image envOk g0 [] "甲" none now0 = (Except.ok "/tmp/tmp2.png", []) ∧
    generate_ranking_image envOk g0 [] now0 now0 = (Except.ok "/tmp/tmp2.png", []) :=
  ⟨(empty_inputs_render_ok envOk g0 "甲" none now0 now0 now0 [9] [9] [9]
      "/tmp/tmp2.png" "/tmp/tmp2.png" "/tmp/tmp2.png").1 rfl rfl,
   (empty_inputs_render_ok envOk g0 "甲" none now0 now0 now0 [9] [9] [9]
      "/tmp/tmp2.png" "/tmp/tmp2.png" "/tmp/tmp2.png").2.1 rfl rfl,
   (empty_inputs_render_ok envOk g0 "甲" none now0 now0 now0 [9] [9] [9]
      "/tmp/tmp2.png" "/tmp/tmp2.png" "/tmp/tmp2.png").2.2 rfl rfl⟩

/-- Claim C8: each of the three render operations is a stateless
transformation of its arguments: as a method it leaves every field of the
generator (template environment, template path, font path) unchanged, and
its result does not depend on any prior call — an operation run after
another returns exactly what it returns when run first. -/
theorem generator_operations_stateless (env : RenderEnv) (g : Generator)
    (courses courses2 : List CourseDict) (nickname : String) (date : Option DateTime)
    (now : DateTime) (rdata : List RankingData) (sd ed : DateTime) :
    ((generate_schedule_image_method env courses g).2 = g ∧
     (generate_user_schedule_image_method env courses nickname date now g).2 = g ∧
     (generate_ranking_image_method env rdata sd ed g).2 = g) ∧
    ((generate_schedule_image_method env courses2
        (generate_user_schedule_image_method env courses nickname date now
          (generate_ranking_image_method env rdata sd ed g).2).2).1 =
      (generate_schedule_image_method env courses2 g).1) ∧
    ((generate_ranking_image_method env rdata sd ed
        (generate_schedule_image_method env courses g).2).1 =
      (generate_ranking_image_method env rdata sd ed g).1) ∧
    ((generate_user_schedule_image_method env courses nickname date now
        (generate_schedule_image_method env courses2 g).2).1 =
      (generate_user_schedule_image_method env courses nickname date now g).1) :=
  ⟨⟨rfl, rfl, rfl⟩, rfl, rfl, rfl⟩
